import Mathlib

/-!
A verification development for `sampled.c`, a small Linux daemon that
forks into the background, detaches from its terminal, and logs the
system time to syslog once per second until it receives SIGTERM.

The C source is embedded shallowly: exit codes and signal numbers become
`Nat` constants, `main`'s daemonization sequence becomes a pure function
from the results of the relevant system calls (`fork`, `setsid`,
`chdir`) to an outcome together with a trace of the side-effecting steps
performed, the signal handler becomes a function from a signal number to
the list of actions it performs, and the infinite logging loop becomes a
step function on a loop state.
-/

namespace Sampled

/-- Exit code `OK` (0) from sampled.c. -/
def OK : Nat := 0

/-- Exit code `ERR_FORK` (3) from sampled.c. -/
def ERR_FORK : Nat := 3

/-- Exit code `ERR_SETSID` (4) from sampled.c. -/
def ERR_SETSID : Nat := 4

/-- Exit code `ERR_CHDIR` (5) from sampled.c. -/
def ERR_CHDIR : Nat := 5

/-- Exit code `ERR_WTF` (187) from sampled.c. -/
def ERR_WTF : Nat := 187

/-- Signal number of SIGHUP on Linux. -/
def SIGHUP : Nat := 1

/-- Signal number of SIGTERM on Linux. -/
def SIGTERM : Nat := 15

/-- `S_IRUSR` (owner read) permission bit. -/
def S_IRUSR : Nat := 0o400

/-- `S_IWUSR` (owner write) permission bit. -/
def S_IWUSR : Nat := 0o200

/-- `S_IRGRP` (group read) permission bit. -/
def S_IRGRP : Nat := 0o040

/-- `S_IROTH` (other read) permission bit. -/
def S_IROTH : Nat := 0o004

/-- The argument sampled.c passes to `umask` at line 148:
`S_IRUSR | S_IWUSR | S_IRGRP | S_IROTH`. -/
def sampledUmask : Nat := S_IRUSR ||| S_IWUSR ||| S_IRGRP ||| S_IROTH

/-- POSIX semantics of the file-creation mask: a file created with
requested mode `mode` receives permissions `mode & ~mask` (on the low
nine permission bits). This is the standard rule used to interpret what
"default permissions for newly created files" means under a given mask. -/
def effective_perm (mode mask : Nat) : Nat :=
  mode &&& (0o777 ^^^ (mask &&& 0o777))

/-- Embedding of C `strrchr(s, c)`: the suffix of `s` that starts at the
last occurrence of `c`, or `none` when `c` does not occur in `s`. -/
def strrchr : List Char → Char → Option (List Char)
  | [], _ => none
  | x :: xs, c =>
    match strrchr xs c with
    | some r => some r
    | none => if x = c then some (x :: xs) else none

/-- Embedding of the `app_name` computation at sampled.c lines 105-111:
`app_name = strrchr(argv[0], '/')`; when the result is non-null the
pointer is advanced one past the `'/'`, otherwise `app_name = argv[0]`. -/
def app_name_of (argv0 : List Char) : List Char :=
  match strrchr argv0 '/' with
  | some r => r.drop 1
  | none => argv0

/-- The actions the signal handler can perform. -/
inductive HAction where
  | logShutdown : HAction
  | closeLog : HAction
  | exitWith : Nat → HAction
  | logUnhandled : HAction
deriving DecidableEq

/-- Embedding of `_signal_handler` (sampled.c lines 72-84) as the list of
actions performed for a given signal number: `SIGHUP` breaks out of the
switch with no action; `SIGTERM` logs a shutdown record, closes the log,
and exits with `OK`; any other signal logs an unhandled-signal record. -/
def signal_handler (s : Nat) : List HAction :=
  if s = SIGHUP then []
  else if s = SIGTERM then [HAction.logShutdown, HAction.closeLog, HAction.exitWith OK]
  else [HAction.logUnhandled]

/-- The two signal numbers for which `main` installs `_signal_handler`
(sampled.c lines 159-160). -/
def installed_signals : List Nat := [SIGHUP, SIGTERM]

/-- Results of the system calls `main` makes, supplied by the OS:
`fork` returns a negative value on failure, `0` in the child and a
positive pid in the parent; `setsid` returns the new session id or `-1`;
`chdir` returns `0` on success and nonzero on failure. -/
structure SysEnv where
  fork_res : Int
  setsid_res : Int
  chdir_res : Int
deriving DecidableEq

/-- The observable steps of `main`'s daemonization sequence, in source
order. -/
inductive Step where
  | openlogS : Step
  | syslogStart : Step
  | forkS : Step
  | syslogErr : Step
  | setsidS : Step
  | closeStdin : Step
  | closeStdout : Step
  | closeStderr : Step
  | umaskStep : Step
  | chdirS : Step
  | installHup : Step
  | installTerm : Step
  | logLoop : Step
deriving DecidableEq

/-- What `main` does overall: exits with a status code, or passes control
into the infinite `_log_time` loop. -/
inductive MainOutcome where
  | exited : Nat → MainOutcome
  | enteredLoop : MainOutcome
deriving DecidableEq

/-- Embedding of `main` (sampled.c lines 100-168) as a function from the
system-call results to the outcome and the trace of steps performed.
Mirrors the source order exactly: openlog and a startup record, then
`fork`; if `pid < 0`, log the error and return `ERR_FORK`; then `setsid`
is called (in parent and child alike) and its result compared with the
source's condition `setsid() < -1`; if `pid > 0` the parent returns
`OK`; then the child closes the three standard descriptors, sets the
umask, runs `chdir("/")` (nonzero result logs the error and returns
`ERR_CHDIR`), installs the two signal handlers, and enters `_log_time`. -/
def main_run (env : SysEnv) : MainOutcome × List Step :=
  if env.fork_res < 0 then
    (MainOutcome.exited ERR_FORK,
      [Step.openlogS, Step.syslogStart, Step.forkS, Step.syslogErr])
  else if env.setsid_res < -1 then
    (MainOutcome.exited ERR_SETSID,
      [Step.openlogS, Step.syslogStart, Step.forkS, Step.setsidS, Step.syslogErr])
  else if env.fork_res > 0 then
    (MainOutcome.exited OK,
      [Step.openlogS, Step.syslogStart, Step.forkS, Step.setsidS])
  else if env.chdir_res ≠ 0 then
    (MainOutcome.exited ERR_CHDIR,
      [Step.openlogS, Step.syslogStart, Step.forkS, Step.setsidS, Step.closeStdin,
       Step.closeStdout, Step.closeStderr, Step.umaskStep, Step.chdirS, Step.syslogErr])
  else
    (MainOutcome.enteredLoop,
      [Step.openlogS, Step.syslogStart, Step.forkS, Step.setsidS, Step.closeStdin,
       Step.closeStdout, Step.closeStderr, Step.umaskStep, Step.chdirS,
       Step.installHup, Step.installTerm, Step.logLoop])

/-- State of the `_log_time` loop: still looping after `n` completed
iterations, or returned to the caller. -/
inductive LoopState where
  | looping : Nat → LoopState
  | returned : LoopState
deriving DecidableEq

/-- The `while (1)` loop condition of `_log_time` (sampled.c line 87). -/
def log_time_cond : Bool := 1 != 0

/-- One evaluation of the `_log_time` loop head: the body (read the
time, convert to local time, emit one syslog record, sleep one second)
contains no `break` or `return`, so a true condition always leads to the
next iteration; a false condition would fall out of the loop and return. -/
def log_time_step : LoopState → LoopState
  | LoopState.looping n =>
      if log_time_cond then LoopState.looping (n + 1) else LoopState.returned
  | LoopState.returned => LoopState.returned

/-- The loop state of `_log_time` after `n` evaluations of the loop head. -/
def log_time_iterate : Nat → LoopState
  | 0 => LoopState.looping 0
  | n + 1 => log_time_step (log_time_iterate n)

theorem strrchr_eq_none_iff (c : Char) :
    ∀ s : List Char, strrchr s c = none ↔ c ∉ s := by
  intro s
  induction s with
  | nil => simp [strrchr]
  | cons x xs ih =>
    cases h : strrchr xs c with
    | some r =>
      have hmem : c ∈ xs := by
        by_contra hc
        rw [← ih] at hc
        simp [h] at hc
      simp [strrchr, h, hmem]
    | none =>
      have hnot : c ∉ xs := (ih).mp h
      by_cases hx : x = c
      · simp [strrchr, h, hx]
      · simp [strrchr, h, hx, hnot]
        intro hcx
        exact hx hcx.symm

theorem strrchr_eq_some (c : Char) :
    ∀ s r : List Char, strrchr s c = some r →
      ∃ pre rest, r = c :: rest ∧ s = pre ++ c :: rest ∧ c ∉ rest := by
  intro s
  induction s with
  | nil => intro r h; simp [strrchr] at h
  | cons x xs ih =>
    intro r h
    cases hxs : strrchr xs c with
    | some q =>
      have hq : q = r := by
        simp [strrchr, hxs] at h
        exact h
      obtain ⟨pre, rest, h1, h2, h3⟩ := ih q hxs
      exact ⟨x :: pre, rest, hq ▸ h1, by simp [h2], h3⟩
    | none =>
      by_cases hx : x = c
      · have hr : r = c :: xs := by
          simp [strrchr, hxs, hx] at h
          exact h.symm
        have hnot : c ∉ xs := (strrchr_eq_none_iff c xs).mp hxs
        exact ⟨[], xs, hr, by simp [hx], hnot⟩
      · simp [strrchr, hxs, hx] at h

/-- Claim C2: for every invocation argument, the derived log tag
`app_name` equals the substring after the final `'/'` when one is
present (the argument decomposes as a prefix, the final slash, and the
tag, with no slash in the tag), and equals the whole argument when no
separator is present. -/
theorem app_name_tag (s : List Char) :
    ('/' ∉ s → app_name_of s = s) ∧
    ('/' ∈ s → ∃ pre, s = pre ++ '/' :: app_name_of s ∧ '/' ∉ app_name_of s) := by
  constructor
  · intro hns
    have h : strrchr s '/' = none := (strrchr_eq_none_iff _ s).mpr hns
    simp [app_name_of, h]
  · intro hs
    cases h : strrchr s '/' with
    | none => exact absurd hs ((strrchr_eq_none_iff _ s).mp h)
    | some r =>
      obtain ⟨pre, rest, h1, h2, h3⟩ := strrchr_eq_some '/' s r h
      have happ : app_name_of s = rest := by
        simp [app_name_of, h, h1]
      exact ⟨pre, by rw [happ]; exact h2, by rw [happ]; exact h3⟩

/-- Witness for C2 at the concrete argument `a/b/c`: the tag is the part
after the last slash and is slash-free. -/
theorem app_name_tag_witness :
    ∃ pre, ['a', '/', 'b', '/', 'c'] =
        pre ++ '/' :: app_name_of ['a', '/', 'b', '/', 'c'] ∧
      '/' ∉ app_name_of ['a', '/', 'b', '/', 'c'] :=
  (app_name_tag ['a', '/', 'b', '/', 'c']).2 (by decide)

/-- Claim C3: when `fork` returns a positive pid (and `setsid` obeys its
POSIX contract of returning a session id or exactly `-1`), the parent
exits with status `OK` (0) and its trace contains none of the later
daemonization steps: no closing of the standard streams, no umask, no
chdir, no signal installation, and no logging loop. -/
theorem parent_exits_ok (env : SysEnv) (hf : 0 < env.fork_res)
    (hs : -1 ≤ env.setsid_res) :
    (main_run env).1 = MainOutcome.exited OK ∧
    Step.closeStdin ∉ (main_run env).2 ∧ Step.closeStdout ∉ (main_run env).2 ∧
    Step.closeStderr ∉ (main_run env).2 ∧ Step.umaskStep ∉ (main_run env).2 ∧
    Step.chdirS ∉ (main_run env).2 ∧ Step.installHup ∉ (main_run env).2 ∧
    Step.installTerm ∉ (main_run env).2 ∧ Step.logLoop ∉ (main_run env).2 := by
  have h1 : ¬ env.fork_res < 0 := by omega
  have h2 : ¬ env.setsid_res < -1 := by omega
  have h3 : 0 < env.fork_res := hf
  simp [main_run, h1, h2, h3]

/-- Witness for C3 at `fork = 5`, `setsid = 7`, `chdir = 0`. -/
theorem parent_exits_ok_witness :
    (main_run (⟨5, 7, 0⟩ : SysEnv)).1 = MainOutcome.exited OK :=
  (parent_exits_ok (⟨5, 7, 0⟩ : SysEnv) (by decide) (by decide)).1

/-- Claim C5: when `fork` returns a negative value, `main` logs the
system error and returns `ERR_FORK` (3), and the trace contains no
subsequent daemonization step (no setsid, stream closing, umask, chdir,
handler installation, or logging loop). -/
theorem fork_failure_exits (env : SysEnv) (hf : env.fork_res < 0) :
    main_run env = (MainOutcome.exited ERR_FORK,
      [Step.openlogS, Step.syslogStart, Step.forkS, Step.syslogErr]) ∧
    Step.setsidS ∉ (main_run env).2 ∧ Step.closeStdin ∉ (main_run env).2 ∧
    Step.umaskStep ∉ (main_run env).2 ∧ Step.chdirS ∉ (main_run env).2 ∧
    Step.installHup ∉ (main_run env).2 ∧ Step.logLoop ∉ (main_run env).2 := by
  simp [main_run, hf]

/-- Witness for C5 at `fork = -1`. -/
theorem fork_failure_exits_witness :
    (main_run (⟨-1, 0, 0⟩ : SysEnv)).1 = MainOutcome.exited ERR_FORK := by
  rw [(fork_failure_exits (⟨-1, 0, 0⟩ : SysEnv) (by decide)).1]

/-- Claim C6: in the surviving child (`fork = 0`, `setsid` within its
POSIX range), a nonzero `chdir("/")` result makes `main` log the system
error and return `ERR_CHDIR` (5) with the logging loop never entered. -/
theorem chdir_failure_exits (env : SysEnv) (hf : env.fork_res = 0)
    (hs : -1 ≤ env.setsid_res) (hc : env.chdir_res ≠ 0) :
    (main_run env).1 = MainOutcome.exited ERR_CHDIR ∧
    Step.syslogErr ∈ (main_run env).2 ∧ Step.logLoop ∉ (main_run env).2 := by
  have h1 : ¬ env.fork_res < 0 := by omega
  have h2 : ¬ env.setsid_res < -1 := by omega
  have h3 : ¬ 0 < env.fork_res := by omega
  simp [main_run, h1, h2, h3, hc]

/-- Witness for C6 at `fork = 0`, `setsid = 3`, `chdir = -1`. -/
theorem chdir_failure_exits_witness :
    (main_run (⟨0, 3, -1⟩ : SysEnv)).1 = MainOutcome.exited ERR_CHDIR :=
  (chdir_failure_exits (⟨0, 3, -1⟩ : SysEnv) (by decide) (by decide) (by decide)).1

/-- Claim C1 (evaluation at the failing input): when `setsid` reports
its error indicator `-1` (with `fork = 0` and `chdir` succeeding), the
source condition `setsid() < -1` is false, so `main` does not take the
`ERR_SETSID` branch: it logs no error for it and proceeds into the
logging loop instead of exiting with status 4. This contradicts the
claim, which says the error is logged and the process exits with
`ERR_SETSID`. -/
theorem setsid_failure_ignored :
    (main_run (⟨0, -1, 0⟩ : SysEnv)).1 = MainOutcome.enteredLoop ∧
    (main_run (⟨0, -1, 0⟩ : SysEnv)).1 ≠ MainOutcome.exited ERR_SETSID ∧
    Step.syslogErr ∉ (main_run (⟨0, -1, 0⟩ : SysEnv)).2 := by decide

/-- Claim C4: dispatching `SIGTERM` to the handler logs the shutdown
record, closes the logging channel, and exits with status `OK` (0), in
that order. -/
theorem sigterm_shutdown :
    signal_handler SIGTERM =
      [HAction.logShutdown, HAction.closeLog, HAction.exitWith OK] := by decide

/-- Claim C8: dispatching `SIGHUP` to the handler performs no action at
all: no log record, no closing of the logging channel, no exit; control
just returns. -/
theorem sighup_noop : signal_handler SIGHUP = [] := by decide

/-- Claim C10: the handler is installed only for the signals in
`installed_signals` (`SIGHUP` and `SIGTERM`), and for each of those the
default (unhandled-signal) branch of the switch is not taken. -/
theorem default_branch_unreachable (s : Nat) (hs : s ∈ installed_signals) :
    signal_handler s ≠ [HAction.logUnhandled] := by
  have h : s = SIGHUP ∨ s = SIGTERM := by simpa [installed_signals] using hs
  rcases h with h | h <;> subst h <;> decide

/-- Witness for C10 at `SIGHUP`. -/
theorem default_branch_unreachable_witness :
    signal_handler SIGHUP ≠ [HAction.logUnhandled] :=
  default_branch_unreachable SIGHUP (by decide)

/-- Claim C9: `_log_time` never returns: after any number `n` of
evaluations of the `while (1)` loop head the state is still
`looping n` (another iteration always follows) and never `returned`,
so the `return ERR_WTF` after the call in `main` is never reached by
normal control flow. -/
theorem log_time_never_returns (n : Nat) :
    log_time_iterate n = LoopState.looping n ∧
    log_time_iterate n ≠ LoopState.returned := by
  induction n with
  | zero => exact ⟨rfl, by simp [log_time_iterate]⟩
  | succ k ih =>
    constructor
    · simp [log_time_iterate, log_time_step, log_time_cond, ih.1]
    · simp [log_time_iterate, log_time_step, log_time_cond, ih.1]

/-- Counterexample for C7: under the POSIX mask rule, the mask
sampled.c installs does not yield an effective default of `0644` for a
file created with requested mode `0666`. -/
theorem umask_not_default_0644 :
    effective_perm 0o666 sampledUmask ≠ 0o644 := by decide

/-- Claim C7 (amended): the `umask` call sets the file-creation mask
itself to `0644` (`S_IRUSR | S_IWUSR | S_IRGRP | S_IROTH`), so the
effective default permission for a file created with requested mode
`0666` is `0666 & ~0644 = 0022`, not owner read/write with group/other
read-only. -/
theorem umask_sets_mask_0644 :
    sampledUmask = 0o644 ∧ effective_perm 0o666 sampledUmask = 0o022 := by decide

end Sampled
